import Mathlib

/-!
Verification development for the resilient caching layer of the traffic-tile
server (`src/vercel-server.js`, the variant with the circuit breaker, error
tracker, LRU fallback cache, KV-backed primary adapter, resilient facade and
request coalescer).

The JavaScript is embedded shallowly: the process-wide mutable state
(`circuitBreaker`, `errorStats`, the KV contents reachable through
`kvClient`, and the fallback LRU contents) becomes an explicit `Sys` record
threaded through pure Lean functions; each fallible KV client call takes a
`kvFails : Bool` input describing whether the underlying store call throws
on this invocation; a thrown JS error is an `Except.error` (messages are
abstracted to `Unit`); `Date.now()` is a `now : Nat` argument in
milliseconds, one reading per operation.  JSON serialisation of the stored
record is modelled as the identity on a structured `Stored` value (the
round-trip `JSON.parse (JSON.stringify x) = x` is an external library
guarantee).  The lru-cache recency behaviour (get promotes, set inserts at
the front and evicts beyond `max`) is modelled by a list in recency order;
its wall-clock ttl expiry is omitted, as no claim below depends on it.
-/

/-- The record `primaryCache.set` serialises into the KV store:
`JSON.stringify({ value, etag, expires })`. -/
structure Stored where
  value : String
  etag : String
  expires : Nat
deriving DecidableEq, Repr

/-- The record `fallbackCacheImpl.set` places in the LRU:
`{ value, etag, expiresAt }`. -/
structure FbEntry where
  value : String
  etag : String
  expiresAt : Nat
deriving DecidableEq, Repr

/-- Shape of the JS object a facade `get` hands back.  Entries parsed from the
primary store carry an `expires` property and no `expiresAt`; entries served
from the fallback cache carry `expiresAt` and no `expires` (a missing
property is `none`). -/
structure JsEntry where
  value : String
  etag : String
  expiresAt : Option Nat
  expires : Option Nat
deriving DecidableEq, Repr

/-- View of a primary-store record as the object `JSON.parse` yields. -/
def storedToJs (st : Stored) : JsEntry :=
  { value := st.value, etag := st.etag, expiresAt := none, expires := some st.expires }

/-- View of a fallback-cache record as the object `fallbackCacheImpl.get`
yields. -/
def fbToJs (e : FbEntry) : JsEntry :=
  { value := e.value, etag := e.etag, expiresAt := some e.expiresAt, expires := none }

/-- `errorStats.counts`: the per-operation failure counters. -/
structure ErrorCounts where
  get : Nat
  set : Nat
  delete : Nat
deriving DecidableEq, Repr

/-- Dynamic lookup `errorStats.counts[operation] || 0`. -/
def ErrorCounts.getOp (c : ErrorCounts) (operation : String) : Nat :=
  if operation = "get" then c.get
  else if operation = "set" then c.set
  else if operation = "delete" then c.delete
  else 0

/-- Dynamic increment `errorStats.counts[operation] = (errorStats.counts[operation] || 0) + 1`.
Only the three valid operation names reach this point (the validation in
`trackError` precedes it). -/
def ErrorCounts.bump (c : ErrorCounts) (operation : String) : ErrorCounts :=
  if operation = "get" then { c with get := c.get + 1 }
  else if operation = "set" then { c with set := c.set + 1 }
  else if operation = "delete" then { c with delete := c.delete + 1 }
  else c

/-- The process-wide mutable state of the caching layer: the `circuitBreaker`
object (`state`, `failureCount`, `lastFailure`, `threshold`, `cooldown`),
the `errorStats` object (`counts`, `lastUpdated`), the contents of the
remote KV store reachable through `kvClient`, and the contents of the
fallback LRU in recency order (most recently used first). -/
structure Sys where
  cbState : String
  failureCount : Nat
  lastFailure : Nat
  threshold : Nat
  cooldown : Nat
  counts : ErrorCounts
  lastUpdated : Nat
  kv : String → Option Stored
  fallback : List (String × FbEntry)

/-- The state at module load: breaker `closed` with `threshold = 5` and
`cooldown = 30000` ms, zero counters, `lastUpdated = Date.now()` at load
time `t0`, empty stores. -/
def initialSys (t0 : Nat) : Sys :=
  { cbState := "closed", failureCount := 0, lastFailure := 0,
    threshold := 5, cooldown := 30000,
    counts := { get := 0, set := 0, delete := 0 }, lastUpdated := t0,
    kv := fun _ => none, fallback := [] }

/-- `generateETag(value)` for string values:
`"${Buffer.from(value).length.toString(16)}-${Date.now().toString(16)}"`,
double quotes included.  Byte length is the UTF-8 size. -/
def generateETag (value : String) (now : Nat) : String :=
  "\"" ++ (Nat.toDigits 16 value.utf8ByteSize).asString ++ "-"
    ++ (Nat.toDigits 16 now).asString ++ "\""

/-- The body of `trackError` past its validation guard: increment the
counter; if the counter has reached `circuitBreaker.threshold` and less than
60000 ms have passed since `errorStats.lastUpdated`, trip the breaker to
`open` and stamp `lastFailure`; then, if more than 60000 ms have passed
since `errorStats.lastUpdated`, zero all counters and restart the window. -/
def trackErrorRun (operation : String) (now : Nat) (s : Sys) : Sys :=
  let c1 := s.counts.bump operation
  let s1 := { s with counts := c1 }
  let s2 :=
    if s1.threshold ≤ c1.getOp operation ∧ now - s1.lastUpdated < 60000 then
      { s1 with cbState := "open", lastFailure := now }
    else s1
  if 60000 < now - s2.lastUpdated then
    { s2 with counts := { get := 0, set := 0, delete := 0 }, lastUpdated := now }
  else s2

/-- `trackError(operation)`: throws `Invalid operation type` unless the
operation is one of `get`, `set`, `delete`; otherwise runs the tracking
body.  The pair is (thrown-or-returned, post-state). -/
def trackError (operation : String) (now : Nat) (s : Sys) : Except Unit Unit × Sys :=
  if operation = "get" ∨ operation = "set" ∨ operation = "delete" then
    (Except.ok (), trackErrorRun operation now s)
  else
    (Except.error (), s)

/-- `primaryCache.get(key)`: try `kvClient.get`; on success parse the stored
record (or return null); on a KV failure the catch block records the error
via `trackError('get')` and returns null — the error is not re-thrown. -/
def primaryCacheGet (key : String) (kvFails : Bool) (now : Nat) (s : Sys) :
    Except Unit (Option JsEntry) × Sys :=
  if kvFails then
    let r := trackError "get" now s
    (r.1.map fun _ => (none : Option JsEntry), r.2)
  else
    (Except.ok ((s.kv key).map storedToJs), s)

/-- `primaryCache.set(key, value, ttl = 3600)`: try to serialise
`{ value, etag, expires }` into the KV store with the given ttl; on a KV
failure the catch block records the error via `trackError('set')` and
returns normally — the error is not re-thrown. -/
def primaryCacheSet (key value : String) (ttl : Option Nat) (kvFails : Bool)
    (now : Nat) (s : Sys) : Except Unit Unit × Sys :=
  let t := ttl.getD 3600
  if kvFails then
    trackError "set" now s
  else
    (Except.ok (),
     { s with kv := fun k =>
        if k = key then
          some { value := value, etag := generateETag value now, expires := now + t * 1000 }
        else s.kv k })

/-- `primaryCache.delete(key)`: try `kvClient.del`; on a KV failure the
catch block records the error via `trackError('delete')` and returns
normally — the error is not re-thrown. -/
def primaryCacheDelete (key : String) (kvFails : Bool) (now : Nat) (s : Sys) :
    Except Unit Unit × Sys :=
  if kvFails then
    trackError "delete" now s
  else
    (Except.ok (), { s with kv := fun k => if k = key then none else s.kv k })

/-- Lookup in the fallback LRU list. -/
def lruFind (key : String) : List (String × FbEntry) → Option FbEntry
  | [] => none
  | (k, e) :: rest => if k = key then some e else lruFind key rest

/-- Remove a key from the fallback LRU list. -/
def lruErase (key : String) : List (String × FbEntry) → List (String × FbEntry)
  | [] => []
  | (k, e) :: rest => if k = key then lruErase key rest else (k, e) :: lruErase key rest

/-- `fallbackCacheImpl.get(key)`: a hit promotes the entry to most recently
used (lru-cache recency update) and projects the stored fields. -/
def fallbackGet (key : String) (s : Sys) : Option FbEntry × Sys :=
  match lruFind key s.fallback with
  | none => (none, s)
  | some e => (some e, { s with fallback := (key, e) :: lruErase key s.fallback })

/-- `fallbackCacheImpl.set(key, value, ttl = 3600)`: store
`{ value, etag, expiresAt }` at the most-recently-used position of the LRU
(`max: 100`), evicting the least recently used entry beyond capacity. -/
def fallbackSet (key value : String) (ttl : Option Nat) (now : Nat) (s : Sys) : Sys :=
  let t := ttl.getD 3600
  let e : FbEntry :=
    { value := value, etag := generateETag value now, expiresAt := now + t * 1000 }
  { s with fallback := ((key, e) :: lruErase key s.fallback).take 100 }

/-- `fallbackCacheImpl.delete(key)`. -/
def fallbackDelete (key : String) (s : Sys) : Sys :=
  { s with fallback := lruErase key s.fallback }

/-- The body of the facade `cache.get` past the breaker check: call
`primaryCache.get`; on a normal return, a `half-open` breaker transitions to
`closed` with the failure count zeroed; the catch block (reachable only if
`primaryCache.get` threw) transitions `half-open` back to `open`, stamps
`lastFailure`, and re-throws. -/
def cacheGetBody (key : String) (kvFails : Bool) (now : Nat) (s : Sys) :
    Except Unit (Option JsEntry) × Sys :=
  match primaryCacheGet key kvFails now s with
  | (Except.ok result, s1) =>
      if s1.cbState = "half-open" then
        (Except.ok result, { s1 with cbState := "closed", failureCount := 0 })
      else
        (Except.ok result, s1)
  | (Except.error e, s1) =>
      if s1.cbState = "half-open" then
        (Except.error e, { s1 with cbState := "open", lastFailure := now })
      else
        (Except.error e, s1)

/-- Facade `cache.get(key)`: if the breaker is `open` and the cooldown has
elapsed, flip to `half-open` and probe the primary; if `open` within the
cooldown, serve from the fallback cache; otherwise go straight to the
primary. -/
def cacheGet (key : String) (kvFails : Bool) (now : Nat) (s : Sys) :
    Except Unit (Option JsEntry) × Sys :=
  if s.cbState = "open" then
    if s.cooldown < now - s.lastFailure then
      cacheGetBody key kvFails now { s with cbState := "half-open" }
    else
      let r := fallbackGet key s
      (Except.ok (r.1.map fbToJs), r.2)
  else
    cacheGetBody key kvFails now s

/-- Facade `cache.set(key, value, ttl)`: if the breaker is `open`, write the
fallback cache and return; otherwise call `primaryCache.set`, and on a
normal return transition to `closed` only when the state literally equals
the string `HALF_OPEN` (which no assigned state ever is); the catch block
(reachable only if `primaryCache.set` threw) writes the fallback cache and
re-throws. -/
def cacheSet (key value : String) (ttl : Option Nat) (kvFails : Bool)
    (now : Nat) (s : Sys) : Except Unit Unit × Sys :=
  if s.cbState = "open" then
    (Except.ok (), fallbackSet key value ttl now s)
  else
    match primaryCacheSet key value ttl kvFails now s with
    | (Except.ok _, s1) =>
        if s1.cbState = "HALF_OPEN" then
          (Except.ok (), { s1 with cbState := "closed", failureCount := 0 })
        else
          (Except.ok (), s1)
    | (Except.error e, s1) =>
        (Except.error e, fallbackSet key value ttl now s1)

/-- Facade `cache.delete(key)`: if the breaker is `open`, delete from the
fallback cache and return; otherwise call `primaryCache.delete`, on a
normal return transitioning `half-open` to `closed` with the failure count
zeroed; the catch block re-throws without touching the fallback. -/
def cacheDelete (key : String) (kvFails : Bool) (now : Nat) (s : Sys) :
    Except Unit Unit × Sys :=
  if s.cbState = "open" then
    (Except.ok (), fallbackDelete key s)
  else
    match primaryCacheDelete key kvFails now s with
    | (Except.ok _, s1) =>
        if s1.cbState = "half-open" then
          (Except.ok (), { s1 with cbState := "closed", failureCount := 0 })
        else
          (Except.ok (), s1)
    | (Except.error e, s1) =>
        (Except.error e, s1)

/-- The body of the facade `cache.get` as the list of successive states of
the process-wide mutable record: entry state, the state after the
`primaryCache.get` call (whose internal `trackError` may trip the breaker),
and the state after the half-open success/failure check. -/
def cacheGetBodyTrace (key : String) (kvFails : Bool) (now : Nat) (s : Sys) : List Sys :=
  match primaryCacheGet key kvFails now s with
  | (Except.ok _, s1) =>
      [s1, if s1.cbState = "half-open" then
             { s1 with cbState := "closed", failureCount := 0 }
           else s1]
  | (Except.error _, s1) =>
      [s1, if s1.cbState = "half-open" then
             { s1 with cbState := "open", lastFailure := now }
           else s1]

/-- The successive states the facade `cache.get` drives the mutable record
through, starting with the entry state. -/
def cacheGetTrace (key : String) (kvFails : Bool) (now : Nat) (s : Sys) : List Sys :=
  if s.cbState = "open" then
    if s.cooldown < now - s.lastFailure then
      s :: { s with cbState := "half-open" }
        :: cacheGetBodyTrace key kvFails now { s with cbState := "half-open" }
    else
      [s, (fallbackGet key s).2]
  else
    s :: cacheGetBodyTrace key kvFails now s

/-- The successive states the facade `cache.set` drives the mutable record
through. -/
def cacheSetTrace (key value : String) (ttl : Option Nat) (kvFails : Bool)
    (now : Nat) (s : Sys) : List Sys :=
  if s.cbState = "open" then
    [s, fallbackSet key value ttl now s]
  else
    match primaryCacheSet key value ttl kvFails now s with
    | (Except.ok _, s1) =>
        [s, s1, if s1.cbState = "HALF_OPEN" then
                  { s1 with cbState := "closed", failureCount := 0 }
                else s1]
    | (Except.error _, s1) =>
        [s, s1, fallbackSet key value ttl now s1]

/-- The successive states the facade `cache.delete` drives the mutable
record through. -/
def cacheDeleteTrace (key : String) (kvFails : Bool) (now : Nat) (s : Sys) : List Sys :=
  if s.cbState = "open" then
    [s, fallbackDelete key s]
  else
    match primaryCacheDelete key kvFails now s with
    | (Except.ok _, s1) =>
        [s, s1, if s1.cbState = "half-open" then
                  { s1 with cbState := "closed", failureCount := 0 }
                else s1]
    | (Except.error _, s1) =>
        [s, s1, s1]

/-- One invocation against the caching layer: a facade operation with its
KV-failure behaviour for this call, or a bare error-tracker event. -/
inductive FacadeOp where
  | getOp (key : String) (kvFails : Bool)
  | setOp (key value : String) (ttl : Option Nat) (kvFails : Bool)
  | delOp (key : String) (kvFails : Bool)
  | trackOp (operation : String)
deriving Repr

/-- The final state of one invocation. -/
def opFinal (op : FacadeOp) (now : Nat) (s : Sys) : Sys :=
  match op with
  | FacadeOp.getOp key kvFails => (cacheGet key kvFails now s).2
  | FacadeOp.setOp key value ttl kvFails => (cacheSet key value ttl kvFails now s).2
  | FacadeOp.delOp key kvFails => (cacheDelete key kvFails now s).2
  | FacadeOp.trackOp operation => (trackError operation now s).2

/-- The successive states of one invocation, starting at the pre-state. -/
def opTrace (op : FacadeOp) (now : Nat) (s : Sys) : List Sys :=
  match op with
  | FacadeOp.getOp key kvFails => cacheGetTrace key kvFails now s
  | FacadeOp.setOp key value ttl kvFails => cacheSetTrace key value ttl kvFails now s
  | FacadeOp.delOp key kvFails => cacheDeleteTrace key kvFails now s
  | FacadeOp.trackOp operation => [s, (trackError operation now s).2]

/-- The successive states of a whole sequence of timestamped invocations. -/
def runTrace : List (FacadeOp × Nat) → Sys → List Sys
  | [], s => [s]
  | (op, now) :: rest, s => opTrace op now s ++ runTrace rest (opFinal op now s)

/-! ### Request coalescing in the tile handler

The handler's coalescing section for a single cache key, under the
single-threaded cooperative scheduling of the host: `activeDownloads` maps
the key either to nothing (no fetch in flight) or to the leader request plus
the list of enqueued waiter resolve callbacks in arrival order.  A request
that misses the cache and finds an in-flight entry pushes its resolve
callback and suspends; when resumed it executes a bare `return`, writing no
response.  When the leader's fetch settles: on success the leader stores the
tile, sends its own response, invokes every queued resolve in order, and the
`finally` clause deletes the registry entry; on failure the catch clause
sends the leader a 500 response and the `finally` clause deletes the
registry entry without any resolve having been invoked. -/

/-- A response the handler writes for some request. -/
inductive CoResp where
  | tile (data : String)
  | errorMsg
deriving DecidableEq, Repr

/-- State of the coalescing machinery for one cache key: the in-flight
entry (leader, waiters in enqueue order) if any, the requests whose resolve
callback has been invoked so far (in invocation order), and the responses
written so far. -/
structure CoState where
  registry : Option (Nat × List Nat)
  resolvedList : List Nat
  responses : List (Nat × CoResp)
deriving DecidableEq, Repr

/-- A scheduling event at the coalescing section: a request (identified by a
number) reaches the `activeDownloads` check after missing the cache, or the
in-flight fetch settles with a result. -/
inductive CoEvent where
  | arrive (r : Nat)
  | fetchDone (outcome : Except Unit String)
deriving Repr

/-- One step of the coalescing machinery, transcribing the handler. -/
def coStep (ev : CoEvent) (st : CoState) : CoState :=
  match ev with
  | CoEvent.arrive r =>
      match st.registry with
      | some (leader, l) => { st with registry := some (leader, l ++ [r]) }
      | none => { st with registry := some (r, []) }
  | CoEvent.fetchDone outcome =>
      match st.registry with
      | none => st
      | some (leader, l) =>
          match outcome with
          | Except.ok data =>
              { registry := none,
                resolvedList := st.resolvedList ++ l,
                responses := st.responses ++ [(leader, CoResp.tile data)] }
          | Except.error _ =>
              { registry := none,
                resolvedList := st.resolvedList,
                responses := st.responses ++ [(leader, CoResp.errorMsg)] }

/-- Run a sequence of coalescing events from the empty state. -/
def coRun (evs : List CoEvent) : CoState :=
  evs.foldl (fun st ev => coStep ev st) { registry := none, resolvedList := [], responses := [] }

/-- Whether two steps of the mutable record respect the breaker discipline:
a state whose breaker is `open` may only be followed by one whose breaker is
still `open` or has moved to `half-open` — in particular never `closed`. -/
def openStepsToHalfOpen (a b : Sys) : Prop :=
  a.cbState = "open" → b.cbState ≠ "closed" ∧ (b.cbState = "open" ∨ b.cbState = "half-open")

instance {ε α : Type _} [DecidableEq ε] [DecidableEq α] : DecidableEq (Except ε α)
  | Except.error a, Except.error b =>
      if h : a = b then Decidable.isTrue (congrArg Except.error h)
      else Decidable.isFalse fun hc => h (Except.error.inj hc)
  | Except.error _, Except.ok _ => Decidable.isFalse fun hc => Except.noConfusion hc
  | Except.ok _, Except.error _ => Decidable.isFalse fun hc => Except.noConfusion hc
  | Except.ok a, Except.ok b =>
      if h : a = b then Decidable.isTrue (congrArg Except.ok h)
      else Decidable.isFalse fun hc => h (Except.ok.inj hc)

theorem ErrorCounts.getOp_bump_self (c : ErrorCounts) (operation : String)
    (h : operation = "get" ∨ operation = "set" ∨ operation = "delete") :
    (c.bump operation).getOp operation = c.getOp operation + 1 := by
  rcases h with h | h | h <;> subst h <;>
    simp [ErrorCounts.bump, ErrorCounts.getOp]

theorem trackErrorRun_cbState_or (operation : String) (now : Nat) (s : Sys) :
    (trackErrorRun operation now s).cbState = "open" ∨
    (trackErrorRun operation now s).cbState = s.cbState := by
  simp only [trackErrorRun]
  split <;> split <;> simp_all

theorem trackError_valid (operation : String) (now : Nat) (s : Sys)
    (h : operation = "get" ∨ operation = "set" ∨ operation = "delete") :
    trackError operation now s = (Except.ok (), trackErrorRun operation now s) := by
  simp [trackError, h]

/-- C5: for every operation in get/set/delete, when recording a failure
brings that operation's counter to the breaker threshold (default 5) within
the current 60-second window, the circuit breaker state becomes `open` and
`lastFailure` is set to the current time. -/
theorem c5_threshold_trips_breaker (operation : String) (now : Nat) (s : Sys)
    (hop : operation = "get" ∨ operation = "set" ∨ operation = "delete")
    (hcount : s.counts.getOp operation + 1 = s.threshold)
    (hwin : now - s.lastUpdated < 60000) :
    (trackError operation now s).2.cbState = "open" ∧
    (trackError operation now s).2.lastFailure = now := by
  rw [trackError_valid operation now s hop]
  have hb := ErrorCounts.getOp_bump_self s.counts operation hop
  simp only [trackErrorRun]
  split_ifs with h1 h2 <;> simp_all

/-- Witness for C5: four prior `get` failures, a fifth at time 10 within the
window trips the breaker with `lastFailure = 10`. -/
theorem c5_witness :
    ({ initialSys 0 with counts := { get := 4, set := 0, delete := 0 } } : Sys).counts.getOp "get" + 1 =
      ({ initialSys 0 with counts := { get := 4, set := 0, delete := 0 } } : Sys).threshold ∧
    (10 : Nat) - ({ initialSys 0 with counts := { get := 4, set := 0, delete := 0 } } : Sys).lastUpdated < 60000 ∧
    (trackError "get" 10 { initialSys 0 with counts := { get := 4, set := 0, delete := 0 } }).2.cbState = "open" ∧
    (trackError "get" 10 { initialSys 0 with counts := { get := 4, set := 0, delete := 0 } }).2.lastFailure = 10 := by
  refine ⟨by decide, by decide, ?_, ?_⟩
  · exact (c5_threshold_trips_breaker "get" 10
      { initialSys 0 with counts := { get := 4, set := 0, delete := 0 } }
      (Or.inl rfl) (by decide) (by decide)).1
  · exact (c5_threshold_trips_breaker "get" 10
      { initialSys 0 with counts := { get := 4, set := 0, delete := 0 } }
      (Or.inl rfl) (by decide) (by decide)).2

/-- C6 (amended): when a failure is recorded more than 60 seconds after the
window start, the breaker cannot trip on it, and the tracker zeroes all
counters and restarts the window *after* recording — so the new failure
ends with a recorded count of 0 (it is discarded by the reset), not 1. -/
theorem c6_rollover_reset_after_recording (operation : String) (now : Nat) (s : Sys)
    (hop : operation = "get" ∨ operation = "set" ∨ operation = "delete")
    (hwin : 60000 < now - s.lastUpdated) :
    (trackError operation now s).2.counts = { get := 0, set := 0, delete := 0 } ∧
    (trackError operation now s).2.lastUpdated = now ∧
    (trackError operation now s).2.cbState = s.cbState ∧
    (trackError operation now s).2.lastFailure = s.lastFailure := by
  rw [trackError_valid operation now s hop]
  have hnt : ¬(s.threshold ≤ (s.counts.bump operation).getOp operation ∧
      now - s.lastUpdated < 60000) := by omega
  simp [trackErrorRun, hnt, hwin]

/-- Counterexample for C6 as stated: a `get` failure recorded at time 60001,
just after the 60-second window from `windowStart = 0` has elapsed, leaves
the `get` counter at 0 — not at the fresh count of 1 the claim requires. -/
theorem c6_rollover_count_zero :
    60000 < (60001 : Nat) -
      ({ initialSys 0 with counts := { get := 4, set := 0, delete := 0 } } : Sys).lastUpdated ∧
    (trackError "get" 60001
      { initialSys 0 with counts := { get := 4, set := 0, delete := 0 } }).2.counts.getOp "get" = 0 ∧
    (trackError "get" 60001
      { initialSys 0 with counts := { get := 4, set := 0, delete := 0 } }).2.counts.getOp "get" ≠ 1 := by
  decide

/-- Witness for C6 (amended): a `set` failure at time 70000 against a window
started at 0 ends with all counters zero, the window restarted at 70000 and
the breaker state untouched. -/
theorem c6_witness :
    (trackError "set" 70000
      { initialSys 0 with counts := { get := 2, set := 3, delete := 0 } }).2.counts =
        { get := 0, set := 0, delete := 0 } ∧
    (trackError "set" 70000
      { initialSys 0 with counts := { get := 2, set := 3, delete := 0 } }).2.lastUpdated = 70000 ∧
    (trackError "set" 70000
      { initialSys 0 with counts := { get := 2, set := 3, delete := 0 } }).2.cbState = "closed" := by
  have h := c6_rollover_reset_after_recording "set" 70000
    { initialSys 0 with counts := { get := 2, set := 3, delete := 0 } }
    (Or.inr (Or.inl rfl)) (by decide)
  exact ⟨h.1, h.2.1, by rw [h.2.2.1]; decide⟩

/-- C1 (code divergence): with the breaker `closed` and the primary store
failing, the facade `set` neither writes the fallback cache nor re-raises
the failure: `primaryCache.set` swallows the KV error inside its own catch
(recording it via the tracker, as the `counts.set = 1` conjunct shows), so
the facade's fallback-and-rethrow catch block is unreachable.  The caller
observes success, the fallback stays empty, and the spec's scenario follow-up
`get("k")` yields nothing. -/
theorem c1_set_failure_swallowed :
    (cacheSet "k" "v" (some 300) true 0 (initialSys 0)).1 = Except.ok () ∧
    (cacheSet "k" "v" (some 300) true 0 (initialSys 0)).2.fallback = [] ∧
    (cacheSet "k" "v" (some 300) true 0 (initialSys 0)).2.counts.set = 1 ∧
    (cacheGet "k" true 1 (cacheSet "k" "v" (some 300) true 0 (initialSys 0)).2).1 =
      Except.ok none := by
  decide

/-- C8 (code divergence): a facade `set` invoked while the breaker is
`half-open`, whose probe call to the primary store succeeds (the KV store
now holds the key), leaves the breaker in `half-open` with the failure count
untouched, because the success check compares the state against the string
`HALF_OPEN`, which never matches the lowercase `half-open` the breaker
actually uses; `delete` with the same probe outcome transitions to `closed`
as claimed. -/
theorem c8_set_probe_success_keeps_half_open :
    (cacheSet "k" "v" (some 60) false 5
      { initialSys 0 with cbState := "half-open", failureCount := 3 }).2.cbState = "half-open" ∧
    (cacheSet "k" "v" (some 60) false 5
      { initialSys 0 with cbState := "half-open", failureCount := 3 }).2.failureCount = 3 ∧
    ((cacheSet "k" "v" (some 60) false 5
      { initialSys 0 with cbState := "half-open", failureCount := 3 }).2.kv "k").isSome = true ∧
    (cacheDelete "k" false 5
      { initialSys 0 with cbState := "half-open", failureCount := 3 }).2.cbState = "closed" := by
  decide

/-- C9 (code divergence): a facade `get` invoked while the breaker is
`half-open`, whose probe call to the primary store fails, transitions the
breaker to `closed` with the failure count zeroed — not back to `open`:
`primaryCache.get` catches the KV error itself (the recorded failure is
visible as `counts.get = 1`) and returns null, so the facade takes the
success path and closes the circuit. -/
theorem c9_get_probe_failure_closes_circuit :
    (cacheGet "k" true 5 { initialSys 0 with cbState := "half-open" }).1 = Except.ok none ∧
    (cacheGet "k" true 5 { initialSys 0 with cbState := "half-open" }).2.cbState = "closed" ∧
    (cacheGet "k" true 5 { initialSys 0 with cbState := "half-open" }).2.failureCount = 0 ∧
    (cacheGet "k" true 5 { initialSys 0 with cbState := "half-open" }).2.counts.get = 1 ∧
    (cacheGet "k" true 5 { initialSys 0 with cbState := "half-open" }).2.cbState ≠ "open" := by
  decide

/-- C3 (code divergence): with one waiter enqueued behind an in-flight fetch
for the same key, a failed fetch ends with the waiter's resolve callback
never invoked and the registry entry deleted (the waiter is suspended
forever), while a successful fetch resolves the waiter in order but writes a
response only for the leader — the waiter receives no value. -/
theorem c3_waiter_starved_and_valueless :
    coRun [CoEvent.arrive 0, CoEvent.arrive 1, CoEvent.fetchDone (Except.error ())] =
      { registry := none, resolvedList := [], responses := [(0, CoResp.errorMsg)] } ∧
    coRun [CoEvent.arrive 0, CoEvent.arrive 1, CoEvent.fetchDone (Except.ok "bytes")] =
      { registry := none, resolvedList := [1], responses := [(0, CoResp.tile "bytes")] } := by
  decide

theorem cacheGet_never_throws (key : String) (kvFails : Bool) (now : Nat) (s : Sys) :
    ∃ v, (cacheGet key kvFails now s).1 = Except.ok v := by
  have hbody : ∀ s3 : Sys, ∃ v, (cacheGetBody key kvFails now s3).1 = Except.ok v := by
    intro s3
    cases kvFails <;>
      simp [cacheGetBody, primaryCacheGet, trackError, Except.map] <;>
      split <;> exact ⟨_, rfl⟩
  simp only [cacheGet]
  split
  · split
    · exact hbody _
    · exact ⟨_, rfl⟩
  · exact hbody _

/-- C2 (amended): when the facade `get` is called in the `closed` state and
the primary store's get fails, the facade records the failure via the error
tracker (the post-state is exactly the tracker-recorded state) and returns
absent — the fallback cache is not consulted in the `closed` state; and in
all states and for all primary outcomes the facade `get` never throws. -/
theorem c2_closed_get_failure_absent (key : String) (now : Nat) (s : Sys)
    (hclosed : s.cbState = "closed") :
    cacheGet key true now s = (Except.ok none, trackErrorRun "get" now s) ∧
    ∀ (key2 : String) (kvFails : Bool) (now2 : Nat) (s2 : Sys),
      ∃ v, (cacheGet key2 kvFails now2 s2).1 = Except.ok v := by
  constructor
  · have hne : (trackErrorRun "get" now s).cbState ≠ "half-open" := by
      rcases trackErrorRun_cbState_or "get" now s with h | h <;> rw [h]
      · decide
      · rw [hclosed]; decide
    simp [cacheGet, hclosed, cacheGetBody, primaryCacheGet, trackError, Except.map, hne]
  · intro key2 kvFails now2 s2
    exact cacheGet_never_throws key2 kvFails now2 s2

/-- Counterexample for C2 as stated: with the breaker `closed`, the fallback
cache holding an entry for `k`, and the primary get failing, the facade
`get` returns absent rather than the fallback entry the claim promises. -/
theorem c2_counterexample :
    ({ initialSys 0 with
        fallback := [("k", { value := "v", etag := "e", expiresAt := 99 })] } : Sys).cbState =
      "closed" ∧
    lruFind "k" ({ initialSys 0 with
        fallback := [("k", { value := "v", etag := "e", expiresAt := 99 })] } : Sys).fallback =
      some { value := "v", etag := "e", expiresAt := 99 } ∧
    (cacheGet "k" true 1 { initialSys 0 with
        fallback := [("k", { value := "v", etag := "e", expiresAt := 99 })] }).1 =
      Except.ok none ∧
    (cacheGet "k" true 1 { initialSys 0 with
        fallback := [("k", { value := "v", etag := "e", expiresAt := 99 })] }).1 ≠
      Except.ok (some (fbToJs { value := "v", etag := "e", expiresAt := 99 })) := by
  decide

/-- Witness for C2 (amended): a failing primary get at time 7 against the
fresh `closed` state returns absent without throwing. -/
theorem c2_witness :
    (cacheGet "k" true 7 (initialSys 0)).1 = Except.ok none := by
  have h := c2_closed_get_failure_absent "k" 7 (initialSys 0) rfl
  rw [h.1]

/-- C10: with the breaker `closed` and a healthy primary store, a facade
`set` of value `v` followed immediately by a facade `get` of the same key
returns an entry whose value equals `v`. -/
theorem c10_round_trip (key value : String) (ttl : Option Nat) (now now2 : Nat) (s : Sys)
    (hclosed : s.cbState = "closed") :
    ∃ e : JsEntry,
      (cacheGet key false now2 (cacheSet key value ttl false now s).2).1 =
        Except.ok (some e) ∧
      e.value = value := by
  have hset : (cacheSet key value ttl false now s).2 =
      { s with kv := fun k =>
          if k = key then
            some { value := value, etag := generateETag value now,
                   expires := now + (ttl.getD 3600) * 1000 }
          else s.kv k } := by
    simp [cacheSet, hclosed, primaryCacheSet]
  refine ⟨storedToJs ⟨value, generateETag value now, now + (ttl.getD 3600) * 1000⟩, ?_, rfl⟩
  rw [hset]
  simp [cacheGet, hclosed, cacheGetBody, primaryCacheGet, storedToJs]

/-- Witness for C10: `set("k", "v", 300)` then `get("k")` on the fresh
`closed` state yields an entry with value `"v"`. -/
theorem c10_witness :
    (initialSys 0).cbState = "closed" ∧
    ∃ e : JsEntry,
      (cacheGet "k" false 2 (cacheSet "k" "v" (some 300) false 1 (initialSys 0)).2).1 =
        Except.ok (some e) ∧
      e.value = "v" :=
  ⟨rfl, c10_round_trip "k" "v" (some 300) 1 2 (initialSys 0) rfl⟩

/-- C7 (amended): only the facade `get` performs the open-state cooldown
probe: with the breaker `open` and the cooldown elapsed, `get` flips the
state to `half-open` (the second state of its trace) and attempts the
primary call (on a healthy primary its result is the primary store's
content); `set` and `delete` invoked while `open` route to the fallback
cache unconditionally — regardless of the cooldown — and never touch the
primary or flip to `half-open`. -/
theorem c7_only_get_probes (key value : String) (ttl : Option Nat) (kvFails : Bool)
    (now : Nat) (s : Sys) (hs : s.cbState = "open") :
    (s.cooldown < now - s.lastFailure →
      (cacheGetTrace key kvFails now s)[1]? = some { s with cbState := "half-open" } ∧
      (cacheGet key false now s).1 = Except.ok ((s.kv key).map storedToJs)) ∧
    cacheSet key value ttl kvFails now s = (Except.ok (), fallbackSet key value ttl now s) ∧
    cacheDelete key kvFails now s = (Except.ok (), fallbackDelete key s) := by
  refine ⟨fun hcool => ⟨?_, ?_⟩, ?_, ?_⟩
  · simp [cacheGetTrace, hs, hcool]
  · simp [cacheGet, hs, hcool, cacheGetBody, primaryCacheGet]
  · simp [cacheSet, hs]
  · simp [cacheDelete, hs]

/-- Counterexample for C7 as stated: with the breaker `open` and the
cooldown elapsed (cooldown 30000 ms, last failure at 0, now 60000), a
facade `set` against a healthy primary leaves the state `open` — it does
not flip to `half-open` — and writes nothing to the primary store. -/
theorem c7_counterexample :
    ({ initialSys 0 with cbState := "open" } : Sys).cooldown <
      (60000 : Nat) - ({ initialSys 0 with cbState := "open" } : Sys).lastFailure ∧
    (cacheSet "k" "v" (some 300) false 60000
      { initialSys 0 with cbState := "open" }).2.cbState = "open" ∧
    (cacheSet "k" "v" (some 300) false 60000
      { initialSys 0 with cbState := "open" }).2.cbState ≠ "half-open" ∧
    (cacheSet "k" "v" (some 300) false 60000
      { initialSys 0 with cbState := "open" }).2.kv "k" = none := by
  decide

/-- Witness for C7 (amended): at the concrete open state with elapsed
cooldown, the `get` trace's second state is `half-open` and a `set` routes
to the fallback cache. -/
theorem c7_witness :
    (cacheGetTrace "k" false 60000 { initialSys 0 with cbState := "open" })[1]? =
      some { ({ initialSys 0 with cbState := "open" } : Sys) with cbState := "half-open" } ∧
    cacheSet "k" "v" (some 300) false 60000 { initialSys 0 with cbState := "open" } =
      (Except.ok (), fallbackSet "k" "v" (some 300) 60000
        { initialSys 0 with cbState := "open" }) := by
  have h := c7_only_get_probes "k" "v" (some 300) false 60000
    { initialSys 0 with cbState := "open" } rfl
  exact ⟨(h.1 (by decide)).1, h.2.1⟩

theorem openStepsToHalfOpen_refl (a : Sys) : openStepsToHalfOpen a a := by
  intro h
  rw [h]
  exact ⟨by decide, Or.inl rfl⟩

theorem openStepsToHalfOpen_of_eq (a b : Sys) (h : b.cbState = a.cbState) :
    openStepsToHalfOpen a b := by
  intro ha
  rw [h, ha]
  exact ⟨by decide, Or.inl rfl⟩

theorem openStepsToHalfOpen_of_or (a b : Sys)
    (h : b.cbState = "open" ∨ b.cbState = a.cbState) : openStepsToHalfOpen a b := by
  intro ha
  rcases h with h | h <;> rw [h]
  · exact ⟨by decide, Or.inl rfl⟩
  · rw [ha]; exact ⟨by decide, Or.inl rfl⟩

theorem trackError_snd_cbState_or (operation : String) (now : Nat) (s : Sys) :
    (trackError operation now s).2.cbState = "open" ∨
    (trackError operation now s).2.cbState = s.cbState := by
  unfold trackError
  split
  · exact trackErrorRun_cbState_or operation now s
  · exact Or.inr rfl

theorem chain_cacheGetBodyTrace (key : String) (kvFails : Bool) (now : Nat) (s : Sys) :
    List.Chain' openStepsToHalfOpen (cacheGetBodyTrace key kvFails now s) := by
  unfold cacheGetBodyTrace
  split <;> {
    refine List.chain'_pair.mpr ?_
    intro h1
    rw [if_neg (by rw [h1]; decide), h1]
    exact ⟨by decide, Or.inl rfl⟩
  }

theorem fallbackGet_snd_cbState (key : String) (s : Sys) :
    ((fallbackGet key s).2).cbState = s.cbState := by
  unfold fallbackGet
  split <;> rfl

theorem chain_cacheGetTrace (key : String) (kvFails : Bool) (now : Nat) (s : Sys) :
    List.Chain' openStepsToHalfOpen (cacheGetTrace key kvFails now s) := by
  unfold cacheGetTrace
  split
  case isTrue hopen =>
    split
    case isTrue hcool =>
      refine List.chain'_cons.mpr ⟨?_, ?_⟩
      · intro h
        exact ⟨by simp, Or.inr rfl⟩
      · refine List.chain'_cons'.mpr ⟨?_, chain_cacheGetBodyTrace key kvFails now _⟩
        intro b hb h
        simp at h
    case isFalse hcool =>
      refine List.chain'_pair.mpr ?_
      exact openStepsToHalfOpen_of_eq _ _ (fallbackGet_snd_cbState key s)
  case isFalse hopen =>
    refine List.chain'_cons'.mpr ⟨?_, chain_cacheGetBodyTrace key kvFails now s⟩
    intro b hb h
    exact absurd h hopen

theorem chain_cacheSetTrace (key value : String) (ttl : Option Nat) (kvFails : Bool)
    (now : Nat) (s : Sys) :
    List.Chain' openStepsToHalfOpen (cacheSetTrace key value ttl kvFails now s) := by
  unfold cacheSetTrace
  split
  case isTrue hopen =>
    exact List.chain'_pair.mpr (openStepsToHalfOpen_of_eq _ _ rfl)
  case isFalse hopen =>
    split
    · refine List.chain'_cons.mpr ⟨fun h => absurd h hopen, List.chain'_pair.mpr ?_⟩
      intro h1
      rw [if_neg (by rw [h1]; decide), h1]
      exact ⟨by decide, Or.inl rfl⟩
    · refine List.chain'_cons.mpr ⟨fun h => absurd h hopen, List.chain'_pair.mpr ?_⟩
      exact openStepsToHalfOpen_of_eq _ _ rfl

theorem chain_cacheDeleteTrace (key : String) (kvFails : Bool) (now : Nat) (s : Sys) :
    List.Chain' openStepsToHalfOpen (cacheDeleteTrace key kvFails now s) := by
  unfold cacheDeleteTrace
  split
  case isTrue hopen =>
    exact List.chain'_pair.mpr (openStepsToHalfOpen_of_eq _ _ rfl)
  case isFalse hopen =>
    split
    · refine List.chain'_cons.mpr ⟨fun h => absurd h hopen, List.chain'_pair.mpr ?_⟩
      intro h1
      rw [if_neg (by rw [h1]; decide), h1]
      exact ⟨by decide, Or.inl rfl⟩
    · refine List.chain'_cons.mpr ⟨fun h => absurd h hopen, List.chain'_pair.mpr ?_⟩
      exact openStepsToHalfOpen_refl _

theorem chain_opTrace (op : FacadeOp) (now : Nat) (s : Sys) :
    List.Chain' openStepsToHalfOpen (opTrace op now s) := by
  cases op
  case getOp key kvFails => exact chain_cacheGetTrace key kvFails now s
  case setOp key value ttl kvFails => exact chain_cacheSetTrace key value ttl kvFails now s
  case delOp key kvFails => exact chain_cacheDeleteTrace key kvFails now s
  case trackOp operation =>
    exact List.chain'_pair.mpr
      (openStepsToHalfOpen_of_or _ _ (trackError_snd_cbState_or operation now s))

theorem opTrace_head (op : FacadeOp) (now : Nat) (s : Sys) :
    (opTrace op now s).head? = some s := by
  cases op
  case getOp key kvFails =>
    show (cacheGetTrace key kvFails now s).head? = some s
    unfold cacheGetTrace
    split
    · split <;> rfl
    · rfl
  case setOp key value ttl kvFails =>
    show (cacheSetTrace key value ttl kvFails now s).head? = some s
    unfold cacheSetTrace
    split
    · rfl
    · split <;> rfl
  case delOp key kvFails =>
    show (cacheDeleteTrace key kvFails now s).head? = some s
    unfold cacheDeleteTrace
    split
    · rfl
    · split <;> rfl
  case trackOp operation => rfl

theorem opTrace_last (op : FacadeOp) (now : Nat) (s : Sys) :
    (opTrace op now s).getLast? = some (opFinal op now s) := by
  cases op
  case getOp key kvFails =>
    show (cacheGetTrace key kvFails now s).getLast? = some ((cacheGet key kvFails now s).2)
    unfold cacheGetTrace cacheGet cacheGetBodyTrace cacheGetBody
    split
    · split
      · split <;> split <;> rfl
      · rfl
    · split <;> split <;> rfl
  case setOp key value ttl kvFails =>
    show (cacheSetTrace key value ttl kvFails now s).getLast? =
      some ((cacheSet key value ttl kvFails now s).2)
    unfold cacheSetTrace cacheSet
    split
    · rfl
    · split
      · split <;> rfl
      · rfl
  case delOp key kvFails =>
    show (cacheDeleteTrace key kvFails now s).getLast? =
      some ((cacheDelete key kvFails now s).2)
    unfold cacheDeleteTrace cacheDelete
    split
    · rfl
    · split
      · split <;> rfl
      · rfl
  case trackOp operation => rfl

theorem runTrace_head (ops : List (FacadeOp × Nat)) (s : Sys) :
    (runTrace ops s).head? = some s := by
  cases ops with
  | nil => rfl
  | cons e rest =>
      rcases e with ⟨op, now⟩
      show (opTrace op now s ++ runTrace rest (opFinal op now s)).head? = some s
      have hh := opTrace_head op now s
      cases hl : opTrace op now s with
      | nil => rw [hl] at hh; cases hh
      | cons a t =>
          rw [hl] at hh
          simp only [List.head?_cons, Option.some.injEq] at hh
          rw [List.cons_append, List.head?_cons, hh]

/-- C4: over every sequence of facade operations (get, set, delete) and
error-tracker events, the breaker never transitions directly from `open` to
`closed`: along the trace of successive states, any state whose breaker is
`open` is followed by one whose breaker is still `open` or has moved to
`half-open` — never `closed`. -/
theorem c4_open_never_directly_closed (ops : List (FacadeOp × Nat)) (s : Sys) :
    List.Chain' openStepsToHalfOpen (runTrace ops s) := by
  induction ops generalizing s with
  | nil => simp [runTrace]
  | cons e rest ih =>
      rcases e with ⟨op, now⟩
      show List.Chain' openStepsToHalfOpen
        (opTrace op now s ++ runTrace rest (opFinal op now s))
      refine List.Chain'.append (chain_opTrace op now s) (ih _) ?_
      intro x hx y hy
      rw [opTrace_last op now s] at hx
      rw [runTrace_head rest (opFinal op now s)] at hy
      simp only [Option.mem_def, Option.some.injEq] at hx hy
      subst hx; subst hy
      exact openStepsToHalfOpen_refl _
